import Mathlib

/-!
# Verification of `src/tools/twitter.js`

A shallow embedding of the two tool handlers (`searchTwitter`, `getUserTweets`),
the shared gateway `performTwitterSearch` and the formatter
`formatTwitterResults`.

Modelling conventions.

* JavaScript strings are Lean strings; the string methods used by the source
  (`startsWith`, `includes`, `substring`) are defined on the character list.
  The only characters searched for or cut off are ASCII, so positions at
  character level and at UTF-16 code-unit level agree where the source uses them.
* A property of a decoded JSON object is a `Field`: `undefined` (the property is
  missing), `null`, or a value. An optional handler argument and the environment
  variable are `Option`s: they are `undefined` or a value.
* A function that may throw returns `Except JSError`.
* The transport (`axios`) is a field of `Env`. It acts on a state of the outside
  world of an arbitrary type `σ`, and the code threads that state through: the
  only way the code can change the world is by calling the transport, so the calls
  it makes are read off the world, not off a log kept by the code.
  The `await` points are sequential composition.
* The form-urlencoding of `URLSearchParams.prototype.toString` and the
  locale-dependent `new Date(x).toLocaleString()` are library code: they are
  fields of `Env`.
* Numbers are integers. A safe integer (magnitude below `2^53`) is rendered in
  decimal, as `Number.prototype.toString` does; the rendering of a larger one
  (rounded digits, exponent form from `10^21` on) is a field of `Env`.
  Array lengths and indices are below `2^32` and are rendered in decimal.
-/

namespace Twitter

/-! ## JavaScript primitives -/

/-- An `Error` object: its `name` and `message`. -/
structure JSError where
  name : String
  message : String
deriving DecidableEq, Repr

/-- A property read from a decoded JSON object. -/
inductive Field (α : Type) where
  | undefined : Field α
  | null : Field α
  | value (a : α) : Field α
deriving DecidableEq, Repr

/-- The error of `throw new Error(message)`. -/
def mkError (message : String) : JSError := ⟨"Error", message⟩

/-- The `TypeError` of reading property `prop` of `base`, which is `undefined`
or `null`. -/
def typeErrorReading (base prop : String) : JSError :=
  ⟨"TypeError", "Cannot read properties of " ++ base ++ " (reading '" ++ prop ++ "')"⟩

/-- `s.startsWith(searchString)`. -/
def startsWith (s searchString : String) : Bool :=
  searchString.data.isPrefixOf s.data

/-- Does `p` occur as a contiguous run inside `s`. -/
def includesChars : List Char → List Char → Bool
  | [], p => p.isPrefixOf []
  | c :: t, p => p.isPrefixOf (c :: t) || includesChars t p

/-- `s.includes(searchString)`. -/
def includes (s searchString : String) : Bool :=
  includesChars s.data searchString.data

/-- `s.substring(start)`. -/
def substring (s : String) (start : Nat) : String :=
  ⟨s.data.drop start⟩

/-- A string argument is truthy when it is defined and not empty. -/
def truthyString : Option String → Bool
  | some s => s != ""
  | none => false

/-- A number argument is truthy when it is defined and not zero. -/
def truthyNumber : Option Int → Bool
  | some n => n != 0
  | none => false

/-- How a template literal renders a string property. -/
def render : Field String → String
  | .value s => s
  | .undefined => "undefined"
  | .null => "null"

/-- The expression `x || 0` on a number property. -/
def orZero : Field Int → Int
  | .value n => if n != 0 then n else 0
  | .undefined => 0
  | .null => 0

/-- The expression `x || []` on an array property. -/
def orEmpty {α : Type} : Field (List α) → List α
  | .value l => l
  | .undefined => []
  | .null => []

/-! ## Query normalisation (lines 64-70) -/

/-- The reassignment of `query` at the start of the `searchTwitter` handler. -/
def normalizeQuery (query : String) : String :=
  if startsWith query "@" && !includes query "(" then
    "(from:" ++ substring query 1 ++ ")"
  else if !includes query "(" && !includes query ":" then
    -- This is a simple keyword search, no formatting needed
    query
  else
    query

/-! ## Data model -/

/-- The author record of a post (`tweet.user`). -/
structure User where
  username : Field String
  name : Field String
deriving DecidableEq, Repr

/-- One post of the upstream result list; every field may be missing. -/
structure Tweet where
  user : Field User
  text : Field String
  favorite_count : Field Int
  retweet_count : Field Int
  reply_count : Field Int
  creation_date : Field String
  media_url : Field (List String)
  tweet_id : Field String
deriving DecidableEq, Repr

/-- The configuration object handed to `axios`. -/
structure HttpRequest where
  method : String
  url : String
  headers : List (String × String)
deriving DecidableEq, Repr

/-- The decoded JSON body of a response (`response.data`). -/
structure ResponseData where
  results : Field (List Tweet)
deriving DecidableEq, Repr

/-- What `axios` resolves to. -/
structure HttpResponse where
  data : Field ResponseData
deriving DecidableEq, Repr

/-- The process environment and the library functions the module calls; `σ` is
the state of the outside world the transport acts on. -/
structure Env (σ : Type) where
  /-- The value of `process.env.RAPIDAPI_KEY`. -/
  RAPIDAPI_KEY : Option String
  /-- The transport: resolves to a response or rejects with an error, and
  changes the outside world. -/
  axios : HttpRequest → σ → Except JSError HttpResponse × σ
  /-- The percent-encoding applied to names and values by `URLSearchParams.toString`. -/
  encode : String → String
  /-- The text of `new Date(x).toLocaleString()`. -/
  toLocaleString : Field String → String
  /-- The text of a number of magnitude `2^53` or more. -/
  largeNumberToString : Int → String

/-- The constant `RAPIDAPI_HOST`. -/
def RAPIDAPI_HOST : String := "twitter154.p.rapidapi.com"

/-- The conversion of a number to a string (`n.toString()`, or `n` inside a
template literal). -/
def numberToString {σ : Type} (env : Env σ) (n : Int) : String :=
  if n.natAbs < 2 ^ 53 then toString n else env.largeNumberToString n

/-- The result of a computation and the outside world it leaves. -/
structure Run (σ α : Type) where
  result : Except JSError α
  world : σ

/-- One item of the `content` array of a tool response. -/
structure ContentItem where
  type : String
  text : String
deriving DecidableEq, Repr

/-- The response envelope of a tool. -/
structure Envelope where
  content : List ContentItem
deriving DecidableEq, Repr

/-! ## The formatter (lines 143-170) -/

/-- The callback of `tweets.forEach`: the lines it pushes onto `output`. -/
def pushTweet {σ : Type} (env : Env σ) (output : List String) (tweet : Tweet) (index : Nat) :
    Except JSError (List String) :=
  match tweet.user with
  | .undefined => .error (typeErrorReading "undefined" "username")
  | .null => .error (typeErrorReading "null" "username")
  | .value user =>
    let output := output ++
      ["[" ++ toString (index + 1) ++ "] @" ++ render user.username ++
        " (" ++ render user.name ++ ")"]
    let output := output ++ [render tweet.text]
    let output := output ++
      ["❤️ " ++ numberToString env (orZero tweet.favorite_count) ++
        " | 🔄 " ++ numberToString env (orZero tweet.retweet_count) ++
        " | 💬 " ++ numberToString env (orZero tweet.reply_count)]
    let output := output ++ ["Posted: " ++ env.toLocaleString tweet.creation_date]
    let output :=
      match tweet.media_url with
      | .value urls =>
        if urls.length > 0 then output ++ ["Media: " ++ String.intercalate ", " urls]
        else output
      | .undefined => output
      | .null => output
    let output := output ++
      ["URL: https://twitter.com/" ++ render user.username ++
        "/status/" ++ render tweet.tweet_id]
    .ok (output ++ [""])

/-- The loop `array.forEach((element, index) => ...)` over an accumulator,
stopping at the first exception. -/
def forEach {τ α : Type} (f : τ → α → Nat → Except JSError τ) :
    List α → Nat → τ → Except JSError τ
  | [], _, s => .ok s
  | a :: rest, index, s =>
    match f s a index with
    | .ok s1 => forEach f rest (index + 1) s1
    | .error e => .error e

/-- The function `formatTwitterResults(query, tweets, section)`. -/
def formatTwitterResults {σ : Type} (env : Env σ) (query : String)
    (tweets : Field (List Tweet)) (section_ : String) : Except JSError String :=
  match tweets with
  | .undefined => .ok ("No tweets found for query: " ++ query)
  | .null => .ok ("No tweets found for query: " ++ query)
  | .value tweets =>
    if tweets.length = 0 then
      .ok ("No tweets found for query: " ++ query)
    else
      let output : List String := []
      let output := output ++ ["=== Twitter Search Results ==="]
      let output := output ++ ["Query: " ++ query]
      let output := output ++ ["Section: " ++ section_]
      let output := output ++ ["Found " ++ toString tweets.length ++ " tweets\n"]
      match forEach (pushTweet env) tweets 0 output with
      | .error e => .error e
      | .ok output => .ok (String.intercalate "\n" output)

/-! ## The gateway (lines 14-47) -/

/-- The entries of a `URLSearchParams` object, in insertion order. -/
abbrev URLSearchParams := List (String × String)

/-- The method `params.append(name, value)`. -/
def URLSearchParams.append (params : URLSearchParams) (name value : String) :
    URLSearchParams :=
  params ++ [(name, value)]

/-- The method `params.toString()`: `name=value` pairs joined by `&`. -/
def URLSearchParams.toString {σ : Type} (env : Env σ) (params : URLSearchParams) : String :=
  String.intercalate "&" (params.map fun p => env.encode p.1 ++ "=" ++ env.encode p.2)

/-- The construction of the query parameters (lines 20-33). -/
def buildParams {σ : Type} (env : Env σ) (query section_ : String) (limit : Int)
    (min_retweets min_likes min_replies : Option Int)
    (start_date end_date language : Option String) : URLSearchParams :=
  let params : URLSearchParams :=
    [("query", query), ("section", section_), ("limit", numberToString env limit)]
  let params :=
    if truthyNumber min_retweets then
      params.append "min_retweets" (numberToString env (min_retweets.getD 0))
    else params
  let params :=
    if truthyNumber min_likes then
      params.append "min_likes" (numberToString env (min_likes.getD 0))
    else params
  let params :=
    if truthyNumber min_replies then
      params.append "min_replies" (numberToString env (min_replies.getD 0))
    else params
  let params :=
    if truthyString start_date then params.append "start_date" (start_date.getD "")
    else params
  let params :=
    if truthyString end_date then params.append "end_date" (end_date.getD "")
    else params
  let params :=
    if truthyString language then params.append "language" (language.getD "")
    else params
  params

/-- The request handed to `axios` (lines 36-43). -/
def searchRequest {σ : Type} (env : Env σ) (key : String) (params : URLSearchParams) :
    HttpRequest :=
  { method := "GET"
    url := "https://twitter154.p.rapidapi.com/search/search?" ++ params.toString env
    headers := [("x-rapidapi-key", key), ("x-rapidapi-host", RAPIDAPI_HOST)] }

/-- The function `performTwitterSearch`, started in the world `w`. -/
def performTwitterSearch {σ : Type} (env : Env σ) (query section_ : String) (limit : Int)
    (min_retweets min_likes min_replies : Option Int)
    (start_date end_date language : Option String) (w : σ) : Run σ (List Tweet) :=
  if !truthyString env.RAPIDAPI_KEY then
    ⟨.error (mkError "RAPIDAPI_KEY environment variable is not set"), w⟩
  else
    let params := buildParams env query section_ limit min_retweets min_likes min_replies
      start_date end_date language
    let request := searchRequest env (env.RAPIDAPI_KEY.getD "") params
    let settled := env.axios request w
    match settled.1 with
    | .error e => ⟨.error e, settled.2⟩
    | .ok response =>
      match response.data with
      | .undefined => ⟨.error (typeErrorReading "undefined" "results"), settled.2⟩
      | .null => ⟨.error (typeErrorReading "null" "results"), settled.2⟩
      | .value data => ⟨.ok (orEmpty data.results), settled.2⟩

/-! ## The tool handlers -/

/-- The arguments of `searchTwitter` after schema defaults. -/
structure SearchArgs where
  query : String
  section_ : String
  limit : Int
  min_retweets : Option Int
  min_likes : Option Int
  min_replies : Option Int
  start_date : Option String
  end_date : Option String
  language : Option String
deriving DecidableEq, Repr

/-- The arguments of `getUserTweets` after schema defaults. -/
structure UserArgs where
  username : String
  limit : Int
  min_likes : Option Int
  section_ : String
deriving DecidableEq, Repr

/-- The envelope with a single text item. -/
def textEnvelope (text : String) : Envelope :=
  { content := [{ type := "text", text := text }] }

/-- The statement `try body catch (error) handler`. -/
def tryCatch {σ α : Type} (body : Run σ α) (handler : JSError → σ → Run σ α) : Run σ α :=
  match body.result with
  | .ok v => ⟨.ok v, body.world⟩
  | .error e => handler e body.world

/-- The `try` block of the `searchTwitter` handler (lines 64-83). -/
def searchTwitterTry {σ : Type} (env : Env σ) (a : SearchArgs) (w : σ) : Run σ Envelope :=
  let query := normalizeQuery a.query
  let search := performTwitterSearch env query a.section_ a.limit a.min_retweets
    a.min_likes a.min_replies a.start_date a.end_date a.language w
  match search.result with
  | .error e => ⟨.error e, search.world⟩
  | .ok tweets =>
    match formatTwitterResults env query (.value tweets) a.section_ with
    | .error e => ⟨.error e, search.world⟩
    | .ok text => ⟨.ok (textEnvelope text), search.world⟩

/-- The `searchTwitter` handler (lines 62-93); the `console.error` of the
catch block writes to the process log only and is left out. -/
def searchTwitter {σ : Type} (env : Env σ) (a : SearchArgs) (w : σ) : Run σ Envelope :=
  tryCatch (searchTwitterTry env a w) fun error w1 =>
    ⟨.ok (textEnvelope ("Error searching Twitter: " ++ error.message)), w1⟩

/-- The `try` block of the `getUserTweets` handler (lines 106-123). -/
def getUserTweetsTry {σ : Type} (env : Env σ) (a : UserArgs) (w : σ) : Run σ Envelope :=
  let formattedUsername :=
    if startsWith a.username "@" then substring a.username 1 else a.username
  let query := "(from:" ++ formattedUsername ++ ")"
  let search := performTwitterSearch env query a.section_ a.limit none a.min_likes
    none none none none w
  match search.result with
  | .error e => ⟨.error e, search.world⟩
  | .ok tweets =>
    match formatTwitterResults env query (.value tweets) a.section_ with
    | .error e => ⟨.error e, search.world⟩
    | .ok text => ⟨.ok (textEnvelope text), search.world⟩

/-- The `getUserTweets` handler (lines 104-132). -/
def getUserTweets {σ : Type} (env : Env σ) (a : UserArgs) (w : σ) : Run σ Envelope :=
  tryCatch (getUserTweetsTry env a w) fun error w1 =>
    ⟨.ok (textEnvelope ("Error fetching tweets from " ++ a.username ++ ": " ++
      error.message)), w1⟩

/-! ## Statement-side definitions -/

/-- The gateway called with `query`, followed by the formatter called with the
same `query` and the envelope built from its text. -/
def gatewayThenFormatter {σ : Type} (env : Env σ) (query section_ : String) (limit : Int)
    (min_retweets min_likes min_replies : Option Int)
    (start_date end_date language : Option String) (w : σ) : Run σ Envelope :=
  let search := performTwitterSearch env query section_ limit min_retweets min_likes
    min_replies start_date end_date language w
  { result := search.result.bind fun tweets =>
      (formatTwitterResults env query (.value tweets) section_).map textEnvelope
    world := search.world }

/-- The environment `env` with a counter added to the world: the counter goes
up by one each time the transport is called, and by nothing else. -/
def counting {σ : Type} (env : Env σ) : Env (σ × Nat) :=
  { RAPIDAPI_KEY := env.RAPIDAPI_KEY
    axios := fun request w => ((env.axios request w.1).1, ((env.axios request w.1).2, w.2 + 1))
    encode := env.encode
    toLocaleString := env.toLocaleString
    largeNumberToString := env.largeNumberToString }

/-- What the specification asks of the text shown for a count: `0` for a missing
count, the value itself for a present one (in decimal for a safe integer). -/
def CountShown {σ : Type} (env : Env σ) (count : Field Int) (text : String) : Prop :=
  match count with
  | .undefined => text = "0"
  | .null => text = "0"
  | .value n =>
    if n.natAbs < 2 ^ 53 then text = toString n else text = env.largeNumberToString n

/-- The text of a count according to the specification. -/
def countText {σ : Type} (env : Env σ) : Field Int → String
  | .value n => numberToString env n
  | .undefined => "0"
  | .null => "0"

/-- The engagement line of a post according to the specification: likes,
retweets, replies, in that order. -/
def engagementLine {σ : Type} (env : Env σ) (t : Tweet) : String :=
  "❤️ " ++ countText env t.favorite_count ++ " | 🔄 " ++ countText env t.retweet_count ++
    " | 💬 " ++ countText env t.reply_count

/-- The media line of a block: present only for a non-empty media list. -/
def mediaLines (t : Tweet) : List String :=
  match t.media_url with
  | .value (url :: urls) => ["Media: " ++ String.intercalate ", " (url :: urls)]
  | _ => []

/-- The block of the post `t` at 1-based `position`, according to the
specification; empty when the post has no author record. -/
def specBlock {σ : Type} (env : Env σ) (position : Nat) (t : Tweet) : List String :=
  match t.user with
  | .value u =>
    ["[" ++ toString position ++ "] @" ++ render u.username ++ " (" ++ render u.name ++ ")",
     render t.text,
     engagementLine env t,
     "Posted: " ++ env.toLocaleString t.creation_date] ++
    mediaLines t ++
    ["URL: https://twitter.com/" ++ render u.username ++ "/status/" ++ render t.tweet_id,
     ""]
  | _ => []

/-- The blocks of a sequence of posts, numbered from `start + 1`, in input order. -/
def specBlocksFrom {σ : Type} (env : Env σ) (start : Nat) (tweets : List Tweet) :
    List (List String) :=
  (tweets.enumFrom start).map fun p => specBlock env (p.1 + 1) p.2

/-- The header lines of a report according to the specification. -/
def specHeader (query section_ : String) (n : Nat) : List String :=
  ["=== Twitter Search Results ===", "Query: " ++ query, "Section: " ++ section_,
   "Found " ++ toString n ++ " tweets\n"]

/-! ## Concrete inputs -/

/-- A post with every field present but the reply count. -/
def fullTweet : Tweet :=
  { user := .value { username := .value "openai", name := .value "OpenAI" }
    text := .value "hello"
    favorite_count := .value 5
    retweet_count := .value 0
    reply_count := .undefined
    creation_date := .value "2024-01-01"
    media_url := .value ["https://pbs.twimg.com/a.jpg"]
    tweet_id := .value "17" }

/-- A post with no field at all. -/
def emptyTweet : Tweet :=
  { user := .undefined, text := .undefined, favorite_count := .undefined,
    retweet_count := .undefined, reply_count := .undefined, creation_date := .undefined,
    media_url := .undefined, tweet_id := .undefined }

/-- A post whose only content is an author record without handle, its name `null`. -/
def bareTweet : Tweet :=
  { emptyTweet with user := .value { username := .undefined, name := .null } }

/-- A post with every field but the author record, which is `null`. -/
def noAuthorTweet : Tweet := { fullTweet with user := .null }

/-- A transport that records the request in the world, a list of the requests
received so far, and settles with `answer`. -/
def recording (answer : Except JSError HttpResponse) :
    HttpRequest → List HttpRequest → Except JSError HttpResponse × List HttpRequest :=
  fun request received => (answer, received ++ [request])

/-- An environment with a credential and an upstream answering two posts. -/
def sampleEnv : Env (List HttpRequest) :=
  { RAPIDAPI_KEY := some "k"
    axios := recording (.ok { data := .value { results := .value [fullTweet, fullTweet] } })
    encode := fun s => s
    toLocaleString := render
    largeNumberToString := fun _ => "large" }

/-- An environment without credential. -/
def noKeyEnv : Env (List HttpRequest) := { sampleEnv with RAPIDAPI_KEY := none }

/-- An environment with an empty credential. -/
def emptyKeyEnv : Env (List HttpRequest) := { sampleEnv with RAPIDAPI_KEY := some "" }

/-- An environment whose upstream answers one post without author record. -/
def brokenPostEnv : Env (List HttpRequest) :=
  { sampleEnv with
    axios := recording (.ok { data := .value { results := .value [emptyTweet] } }) }

/-- An environment whose transport rejects every request. -/
def failingEnv : Env (List HttpRequest) :=
  { sampleEnv with
    axios := recording (.error ⟨"AxiosError", "Request failed with status code 429"⟩) }

/-- Arguments of `searchTwitter` with only the query chosen. -/
def searchArgs (query : String) : SearchArgs :=
  { query := query, section_ := "top", limit := 2, min_retweets := none,
    min_likes := none, min_replies := none, start_date := none, end_date := none,
    language := none }

/-- The call `searchTwitter({ query: "a", min_likes: 0 })` after schema defaults. -/
def zeroLikesArgs : SearchArgs :=
  { query := "a", section_ := "latest", limit := 10, min_retweets := none,
    min_likes := some 0, min_replies := none, start_date := none, end_date := none,
    language := none }

/-- Arguments of `getUserTweets` with only the username chosen. -/
def userArgs (username : String) : UserArgs :=
  { username := username, limit := 10, min_likes := none, section_ := "latest" }

/-! ## String lemmas -/

theorem startsWith_at_iff (s : String) :
    startsWith s "@" = true ↔ s.data.head? = some '@' := by
  unfold startsWith
  show List.isPrefixOf ['@'] s.data = true ↔ _
  cases hs : s.data with
  | nil => simp [List.isPrefixOf]
  | cons c t =>
    have hnil : List.isPrefixOf ([] : List Char) t = true := by cases t <;> rfl
    simp only [List.isPrefixOf, hnil, Bool.and_true, beq_iff_eq, List.head?_cons,
      Option.some.injEq]
    exact eq_comm

theorem startsWith_at_append (rest : String) : startsWith ("@" ++ rest) "@" = true := by
  rw [startsWith_at_iff]
  simp [String.data_append]

theorem substring_at_append (rest : String) : substring ("@" ++ rest) 1 = rest := by
  unfold substring
  simp [String.data_append]

theorem includesChars_single (c : Char) (l : List Char) :
    includesChars l [c] = true ↔ c ∈ l := by
  induction l with
  | nil => simp [includesChars, List.isPrefixOf]
  | cons d t ih =>
    simp only [includesChars, List.isPrefixOf, Bool.or_eq_true, ih, List.mem_cons,
      Bool.and_eq_true, beq_iff_eq]
    constructor
    · rintro (⟨h, -⟩ | h)
      · exact Or.inl h
      · exact Or.inr h
    · rintro (h | h)
      · exact Or.inl ⟨h, by cases t <;> simp [List.isPrefixOf]⟩
      · exact Or.inr h

theorem includes_paren_iff (s : String) : includes s "(" = true ↔ '(' ∈ s.data :=
  includesChars_single '(' s.data

theorem includes_colon_iff (s : String) : includes s ":" = true ↔ ':' ∈ s.data :=
  includesChars_single ':' s.data

/-! ## The handlers and the normalised query -/

theorem searchTwitterTry_eq {σ : Type} (env : Env σ) (a : SearchArgs) (w : σ) :
    searchTwitterTry env a w =
      gatewayThenFormatter env (normalizeQuery a.query) a.section_ a.limit a.min_retweets
        a.min_likes a.min_replies a.start_date a.end_date a.language w := by
  unfold searchTwitterTry gatewayThenFormatter
  simp only []
  cases performTwitterSearch env (normalizeQuery a.query) a.section_ a.limit a.min_retweets
      a.min_likes a.min_replies a.start_date a.end_date a.language w with
  | mk result world =>
    cases result with
    | error e => rfl
    | ok tweets =>
      simp only [Except.bind]
      cases formatTwitterResults env (normalizeQuery a.query) (.value tweets) a.section_ <;> rfl

theorem normalizeQuery_unchanged_iff (query : String) :
    normalizeQuery query = query ∨
      (query.data.head? = some '@' ∧ '(' ∉ query.data ∧
        normalizeQuery query = "(from:" ++ substring query 1 ++ ")") := by
  unfold normalizeQuery
  by_cases h : (startsWith query "@" && !includes query "(") = true
  · right
    simp only [Bool.and_eq_true, Bool.not_eq_true', startsWith_at_iff] at h
    refine ⟨h.1, ?_, ?_⟩
    · rw [← includes_paren_iff]; simp [h.2]
    · simp [startsWith_at_iff, h.1, h.2]
  · left
    rw [if_neg h]
    split <;> rfl

/-- C1: in the `searchTwitter` handler, a query that starts with `@` and holds no
parenthesis is replaced by `(from:` + the query without its first character + `)`,
and this is the query handed to the gateway and to the formatter. -/
theorem searchTwitter_handle_query {σ : Type} (env : Env σ) (w : σ) (a : SearchArgs)
    (rest : String) (hat : a.query = "@" ++ rest)
    (hparen : ∀ c ∈ a.query.data, c ≠ '(' ∧ c ≠ ')') :
    normalizeQuery a.query = "(from:" ++ rest ++ ")" ∧
    searchTwitterTry env a w =
      gatewayThenFormatter env ("(from:" ++ rest ++ ")") a.section_ a.limit a.min_retweets
        a.min_likes a.min_replies a.start_date a.end_date a.language w := by
  have hnorm : normalizeQuery a.query = "(from:" ++ rest ++ ")" := by
    have hinc : includes a.query "(" = false := by
      cases hi : includes a.query "(" with
      | false => rfl
      | true => exact absurd rfl ((hparen _ ((includes_paren_iff _).1 hi)).1)
    unfold normalizeQuery
    rw [hinc, hat, startsWith_at_append, substring_at_append]
    rfl
  refine ⟨hnorm, ?_⟩
  rw [searchTwitterTry_eq, hnorm]

theorem searchTwitter_handle_query_witness :
    normalizeQuery (searchArgs "@openai").query = "(from:" ++ "openai" ++ ")" ∧
    searchTwitterTry sampleEnv (searchArgs "@openai") [] =
      gatewayThenFormatter sampleEnv ("(from:" ++ "openai" ++ ")") "top" 2 none none none
        none none none [] :=
  searchTwitter_handle_query sampleEnv [] (searchArgs "@openai") "openai" (by decide)
    (by decide)

/-- C2, as stated, fails: the query `@a:b` contains a colon, yet it is rewritten
to `(from:a:b)`. -/
theorem normalizeQuery_colon_counterexample :
    ':' ∈ "@a:b".data ∧ normalizeQuery "@a:b" = "(from:a:b)" ∧
      normalizeQuery "@a:b" ≠ "@a:b" := by
  decide

/-- C2, amended: a query that contains `(`, or that contains `:` and does not
start with `@`, reaches the gateway and the formatter unchanged. -/
theorem searchTwitter_formatted_query_unchanged {σ : Type} (env : Env σ) (w : σ)
    (a : SearchArgs)
    (h : '(' ∈ a.query.data ∨ (':' ∈ a.query.data ∧ a.query.data.head? ≠ some '@')) :
    normalizeQuery a.query = a.query ∧
    searchTwitterTry env a w =
      gatewayThenFormatter env a.query a.section_ a.limit a.min_retweets
        a.min_likes a.min_replies a.start_date a.end_date a.language w := by
  have hnorm : normalizeQuery a.query = a.query := by
    rcases normalizeQuery_unchanged_iff a.query with h1 | ⟨hhead, hno, -⟩
    · exact h1
    · rcases h with h | ⟨-, h⟩
      · exact absurd h hno
      · exact absurd hhead h
  refine ⟨hnorm, ?_⟩
  rw [searchTwitterTry_eq, hnorm]

theorem searchTwitter_formatted_query_unchanged_witness :
    normalizeQuery (searchArgs "(from:a) lang:en").query = "(from:a) lang:en" ∧
    searchTwitterTry sampleEnv (searchArgs "(from:a) lang:en") [] =
      gatewayThenFormatter sampleEnv "(from:a) lang:en" "top" 2 none none none
        none none none [] :=
  searchTwitter_formatted_query_unchanged sampleEnv [] (searchArgs "(from:a) lang:en")
    (Or.inl (by decide))

theorem getUserTweetsTry_eq {σ : Type} (env : Env σ) (a : UserArgs) (w : σ) :
    getUserTweetsTry env a w =
      gatewayThenFormatter env
        ("(from:" ++ (if startsWith a.username "@" then substring a.username 1
          else a.username) ++ ")")
        a.section_ a.limit none a.min_likes none none none none w := by
  unfold getUserTweetsTry gatewayThenFormatter
  simp only []
  cases performTwitterSearch env
      ("(from:" ++ (if startsWith a.username "@" then substring a.username 1
          else a.username) ++ ")") a.section_ a.limit none a.min_likes none none none none
      w with
  | mk result world =>
    cases result with
    | error e => rfl
    | ok tweets =>
      simp only [Except.bind]
      cases formatTwitterResults env
        ("(from:" ++ (if startsWith a.username "@" then substring a.username 1
          else a.username) ++ ")") (.value tweets) a.section_ <;> rfl

/-- C9: in the `getUserTweets` handler the query handed to the gateway and to the
formatter is `(from:h)`, where `h` is the username without its leading `@` when it
has one and the username itself otherwise, whatever else the username contains;
the username `@` gives `(from:)`. -/
theorem getUserTweets_query {σ : Type} (env : Env σ) (w : σ) (a : UserArgs) :
    (∃ handle : String,
      (a.username = "@" ++ handle ∨
        (a.username.data.head? ≠ some '@' ∧ handle = a.username)) ∧
      getUserTweetsTry env a w =
        gatewayThenFormatter env ("(from:" ++ handle ++ ")") a.section_ a.limit none
          a.min_likes none none none none w) ∧
    getUserTweetsTry env { a with username := "@" } w =
      gatewayThenFormatter env "(from:)" a.section_ a.limit none a.min_likes
        none none none none w := by
  constructor
  · by_cases hs : startsWith a.username "@" = true
    · refine ⟨substring a.username 1, Or.inl ?_, ?_⟩
      · have hhead := (startsWith_at_iff _).1 hs
        apply String.ext
        rw [String.data_append]
        unfold substring
        cases hd : a.username.data with
        | nil => rw [hd] at hhead; simp at hhead
        | cons c t =>
          rw [hd] at hhead
          simp only [List.head?_cons, Option.some.injEq] at hhead
          subst hhead
          rfl
      · rw [getUserTweetsTry_eq, if_pos hs]
    · refine ⟨a.username, Or.inr ⟨?_, rfl⟩, ?_⟩
      · intro hhead
        exact hs ((startsWith_at_iff _).2 hhead)
      · rw [getUserTweetsTry_eq, if_neg hs]
  · rw [getUserTweetsTry_eq]
    rfl

/-! ## The formatter -/

theorem numberToString_zero {σ : Type} (env : Env σ) : numberToString env 0 = "0" := by
  unfold numberToString
  rw [if_pos (by decide)]
  rfl

theorem numberToString_orZero {σ : Type} (env : Env σ) (x : Field Int) :
    numberToString env (orZero x) = countText env x := by
  cases x with
  | undefined => exact numberToString_zero env
  | null => exact numberToString_zero env
  | value n =>
    by_cases h : n = 0
    · subst h; rfl
    · simp [orZero, countText, h]

theorem countShown_countText {σ : Type} (env : Env σ) (x : Field Int) :
    CountShown env x (countText env x) := by
  cases x with
  | undefined => rfl
  | null => rfl
  | value n =>
    unfold CountShown countText numberToString
    simp only []
    split <;> rfl

theorem pushTweet_ok {σ : Type} (env : Env σ) (output : List String) (t : Tweet) (index : Nat)
    (u : User) (hu : t.user = .value u) :
    pushTweet env output t index = .ok (output ++ specBlock env (index + 1) t) := by
  unfold pushTweet specBlock
  rw [hu]
  simp only [numberToString_orZero, engagementLine, mediaLines]
  cases hm : t.media_url with
  | undefined => simp
  | null => simp
  | value urls =>
    cases urls with
    | nil => simp
    | cons url rest => simp

theorem forEach_pushTweet {σ : Type} (env : Env σ) (tweets : List Tweet) :
    ∀ (index : Nat) (output : List String), (∀ t ∈ tweets, ∃ u, t.user = .value u) →
      forEach (pushTweet env) tweets index output =
        .ok (output ++ (specBlocksFrom env index tweets).flatten) := by
  induction tweets with
  | nil => intro index output _; simp [forEach, specBlocksFrom]
  | cons t rest ih =>
    intro index output h
    obtain ⟨u, hu⟩ := h t (List.mem_cons_self _ _)
    have hrest : ∀ x ∈ rest, ∃ u, x.user = .value u :=
      fun x hx => h x (List.mem_cons_of_mem _ hx)
    simp only [forEach, pushTweet_ok env output t index u hu]
    rw [ih (index + 1) _ hrest]
    simp [specBlocksFrom, List.enumFrom_cons, List.append_assoc]

theorem formatTwitterResults_eq {σ : Type} (env : Env σ) (query section_ : String)
    (tweets : List Tweet) (hne : tweets ≠ [])
    (huser : ∀ t ∈ tweets, ∃ u, t.user = .value u) :
    formatTwitterResults env query (.value tweets) section_ =
      .ok (String.intercalate "\n"
        (specHeader query section_ tweets.length ++
          (specBlocksFrom env 0 tweets).flatten)) := by
  have hlen : ¬ tweets.length = 0 := by
    intro h; exact hne (List.length_eq_zero.1 h)
  unfold formatTwitterResults
  simp only [if_neg hlen]
  rw [forEach_pushTweet env tweets 0 _ huser]
  rfl

theorem specBlocksFrom_length {σ : Type} (env : Env σ) (start : Nat) (tweets : List Tweet) :
    (specBlocksFrom env start tweets).length = tweets.length := by
  simp [specBlocksFrom]

theorem specBlocksFrom_getElem? {σ : Type} (env : Env σ) (tweets : List Tweet) (i : Nat)
    (hi : i < tweets.length) :
    (specBlocksFrom env 0 tweets)[i]? = some (specBlock env (i + 1) (tweets.get ⟨i, hi⟩)) := by
  simp [specBlocksFrom, List.getElem?_map, List.getElem?_enumFrom, List.getElem?_eq_getElem hi]

theorem specBlock_of_user {σ : Type} (env : Env σ) (position : Nat) (t : Tweet) (u : User)
    (hu : t.user = .value u) :
    specBlock env position t =
      ("[" ++ toString position ++ "] @" ++ render u.username ++ " (" ++ render u.name ++ ")") ::
        render t.text :: engagementLine env t ::
          (["Posted: " ++ env.toLocaleString t.creation_date] ++ mediaLines t ++
            ["URL: https://twitter.com/" ++ render u.username ++ "/status/" ++
              render t.tweet_id, ""]) := by
  unfold specBlock
  rw [hu]
  rfl

/-- C4: with an empty or an absent (`undefined` or `null`) post sequence,
`formatTwitterResults` returns exactly `No tweets found for query: ` followed by
the query, whatever the section. -/
theorem formatTwitterResults_empty {σ : Type} (env : Env σ) (query section_ : String) :
    formatTwitterResults env query (.value []) section_ =
        .ok ("No tweets found for query: " ++ query) ∧
      formatTwitterResults env query .undefined section_ =
        .ok ("No tweets found for query: " ++ query) ∧
      formatTwitterResults env query .null section_ =
        .ok ("No tweets found for query: " ++ query) :=
  ⟨rfl, rfl, rfl⟩

/-- C3, as stated, fails: for the two posts `fullTweet`, `emptyTweet`, the second
without author record, `formatTwitterResults` raises a `TypeError` and there is no
output, hence no header and no block. -/
theorem formatTwitterResults_layout_counterexample :
    [fullTweet, emptyTweet] ≠ [] ∧
      formatTwitterResults sampleEnv "q" (.value [fullTweet, emptyTweet]) "top" =
        .error ⟨"TypeError", "Cannot read properties of undefined (reading 'username')"⟩ :=
  ⟨by decide, rfl⟩

/-- C3, amended: for a non-empty sequence of `n` posts, each with its author record,
the output of `formatTwitterResults` is the four header lines (title, query, section,
`Found n tweets`) followed by exactly `n` blocks in input order; the `i`-th block
is computed from `i` and the `i`-th post alone, and its first line starts with
`[i] @` followed by the handle of that post. -/
theorem formatTwitterResults_layout {σ : Type} (env : Env σ) (query section_ : String)
    (tweets : List Tweet) (hne : tweets ≠ [])
    (huser : ∀ t ∈ tweets, ∃ u, t.user = .value u) :
    ∃ blocks : List (List String),
      formatTwitterResults env query (.value tweets) section_ =
        .ok (String.intercalate "\n"
          (["=== Twitter Search Results ===", "Query: " ++ query, "Section: " ++ section_,
            "Found " ++ toString tweets.length ++ " tweets\n"] ++ blocks.flatten)) ∧
      blocks.length = tweets.length ∧
      ∀ (i : Nat) (hi : i < tweets.length),
        blocks[i]? = some (specBlock env (i + 1) (tweets.get ⟨i, hi⟩)) ∧
        ∃ (u : User) (first : String) (lines : List String),
          (tweets.get ⟨i, hi⟩).user = .value u ∧
          blocks[i]? = some (first :: lines) ∧
          ∀ handle, u.username = .value handle →
            ∃ rest, first = "[" ++ toString (i + 1) ++ "] @" ++ handle ++ rest := by
  refine ⟨specBlocksFrom env 0 tweets,
    formatTwitterResults_eq env query section_ tweets hne huser,
    specBlocksFrom_length env 0 tweets, ?_⟩
  intro i hi
  refine ⟨specBlocksFrom_getElem? env tweets i hi, ?_⟩
  obtain ⟨u, hu⟩ := huser _ (List.get_mem tweets i hi)
  rw [specBlocksFrom_getElem? env tweets i hi, specBlock_of_user env (i + 1) _ u hu]
  refine ⟨u, _, _, hu, rfl, ?_⟩
  intro handle hh
  refine ⟨" (" ++ render u.name ++ ")", ?_⟩
  rw [hh]
  simp only [render, String.append_assoc]

theorem formatTwitterResults_layout_witness :
    ∃ blocks : List (List String),
      formatTwitterResults sampleEnv "(from:openai)" (.value [fullTweet, bareTweet]) "top" =
        .ok (String.intercalate "\n"
          (["=== Twitter Search Results ===", "Query: (from:openai)", "Section: top",
            "Found 2 tweets\n"] ++ blocks.flatten)) ∧
      blocks.length = 2 ∧
      blocks[0]? = some (specBlock sampleEnv 1 fullTweet) ∧
      blocks[1]? = some (specBlock sampleEnv 2 bareTweet) ∧
      ∃ (rest : String) (lines : List String),
        blocks[0]? = some (("[1] @openai" ++ rest) :: lines) := by
  obtain ⟨blocks, hout, hlen, hall⟩ :=
    formatTwitterResults_layout sampleEnv "(from:openai)" "top" [fullTweet, bareTweet]
      (by decide) (by
        intro t ht
        simp only [List.mem_cons, List.mem_singleton, List.not_mem_nil, or_false] at ht
        rcases ht with rfl | rfl <;> exact ⟨_, rfl⟩)
  obtain ⟨h0, u, first, lines, hu, hfirst, hhandle⟩ := hall 0 (by decide)
  obtain ⟨h1, -⟩ := hall 1 (by decide)
  refine ⟨blocks, hout, hlen, h0, h1, ?_⟩
  have hu0 : u = { username := .value "openai", name := .value "OpenAI" } := by
    have h : Field.value ({ username := .value "openai", name := .value "OpenAI" } : User) =
        Field.value u := hu
    exact (Field.value.inj h).symm
  obtain ⟨rest, hrest⟩ := hhandle "openai" (by rw [hu0])
  exact ⟨rest, lines, by rw [hfirst, hrest]; rfl⟩

/-- C10, as stated, fails: for the one post `noAuthorTweet`, whose counts are all
present but whose author record is `null`, `formatTwitterResults` raises a
`TypeError` and writes no engagement line. -/
theorem formatTwitterResults_engagement_counterexample :
    noAuthorTweet.favorite_count = .value 5 ∧
      formatTwitterResults sampleEnv "q" (.value [noAuthorTweet]) "latest" =
        .error ⟨"TypeError", "Cannot read properties of null (reading 'username')"⟩ :=
  ⟨rfl, rfl⟩

/-- C10, amended: for every post of a non-empty sequence in which each post has its
author record, the third line of its block is the engagement line: likes,
retweets and replies in that order, a missing count shown as `0` and a present
count as its own value. -/
theorem formatTwitterResults_engagement {σ : Type} (env : Env σ) (query section_ : String)
    (tweets : List Tweet) (hne : tweets ≠ [])
    (huser : ∀ t ∈ tweets, ∃ u, t.user = .value u) :
    ∃ blocks : List (List String),
      formatTwitterResults env query (.value tweets) section_ =
        .ok (String.intercalate "\n"
          (["=== Twitter Search Results ===", "Query: " ++ query, "Section: " ++ section_,
            "Found " ++ toString tweets.length ++ " tweets\n"] ++ blocks.flatten)) ∧
      blocks.length = tweets.length ∧
      ∀ (i : Nat) (hi : i < tweets.length),
        ∃ (first second likes retweets replies : String) (lines : List String),
          blocks[i]? = some (first :: second ::
            ("❤️ " ++ likes ++ " | 🔄 " ++ retweets ++ " | 💬 " ++ replies) :: lines) ∧
          CountShown env (tweets.get ⟨i, hi⟩).favorite_count likes ∧
          CountShown env (tweets.get ⟨i, hi⟩).retweet_count retweets ∧
          CountShown env (tweets.get ⟨i, hi⟩).reply_count replies := by
  refine ⟨specBlocksFrom env 0 tweets,
    formatTwitterResults_eq env query section_ tweets hne huser,
    specBlocksFrom_length env 0 tweets, ?_⟩
  intro i hi
  obtain ⟨u, hu⟩ := huser _ (List.get_mem tweets i hi)
  rw [specBlocksFrom_getElem? env tweets i hi, specBlock_of_user env (i + 1) _ u hu]
  exact ⟨_, _, countText env (tweets.get ⟨i, hi⟩).favorite_count,
    countText env (tweets.get ⟨i, hi⟩).retweet_count,
    countText env (tweets.get ⟨i, hi⟩).reply_count, _, rfl,
    countShown_countText env _, countShown_countText env _, countShown_countText env _⟩

theorem formatTwitterResults_engagement_witness :
    ∃ (blocks : List (List String)) (first second : String) (lines : List String),
      formatTwitterResults sampleEnv "q" (.value [fullTweet, bareTweet]) "latest" =
        .ok (String.intercalate "\n"
          (["=== Twitter Search Results ===", "Query: q", "Section: latest",
            "Found 2 tweets\n"] ++ blocks.flatten)) ∧
      blocks[0]? = some (first :: second :: "❤️ 5 | 🔄 0 | 💬 0" :: lines) := by
  obtain ⟨blocks, hout, -, hall⟩ :=
    formatTwitterResults_engagement sampleEnv "q" "latest" [fullTweet, bareTweet]
      (by decide) (by
        intro t ht
        simp only [List.mem_cons, List.mem_singleton, List.not_mem_nil, or_false] at ht
        rcases ht with rfl | rfl <;> exact ⟨_, rfl⟩)
  obtain ⟨first, second, likes, retweets, replies, lines, hblock, hl, hr, hp⟩ :=
    hall 0 (by decide)
  have hl5 : likes = "5" := by
    have h : (if (5 : Int).natAbs < 2 ^ 53 then likes = toString (5 : Int)
        else likes = sampleEnv.largeNumberToString 5) := hl
    rw [if_pos (by decide)] at h
    exact h
  have hr0 : retweets = "0" := by
    have h : (if (0 : Int).natAbs < 2 ^ 53 then retweets = toString (0 : Int)
        else retweets = sampleEnv.largeNumberToString 0) := hr
    rw [if_pos (by decide)] at h
    exact h
  have hp0 : replies = "0" := hp
  refine ⟨blocks, first, second, lines, hout, ?_⟩
  rw [hblock, hl5, hr0, hp0]
  rfl

/-- C5, as stated, fails: a post without author record makes
`formatTwitterResults` raise a `TypeError` instead of returning a string. -/
theorem formatTwitterResults_missing_user_counterexample :
    formatTwitterResults sampleEnv "q" (.value [emptyTweet]) "latest" =
      .error ⟨"TypeError", "Cannot read properties of undefined (reading 'username')"⟩ := by
  rfl

/-- C5, amended: `formatTwitterResults` returns a string for every query, section
and present or absent sequence of posts in which each post has an author record;
handle, name, text, counts, timestamp, media list and identifier may be missing. -/
theorem formatTwitterResults_total {σ : Type} (env : Env σ) (query section_ : String)
    (tweets : Field (List Tweet))
    (huser : ∀ ts, tweets = .value ts → ∀ t ∈ ts, ∃ u, t.user = .value u) :
    ∃ text : String, formatTwitterResults env query tweets section_ = .ok text := by
  cases tweets with
  | undefined => exact ⟨_, rfl⟩
  | null => exact ⟨_, rfl⟩
  | value ts =>
    cases ts with
    | nil => exact ⟨_, rfl⟩
    | cons t rest =>
      exact ⟨_, formatTwitterResults_eq env query section_ (t :: rest) (List.cons_ne_nil _ _)
        (huser _ rfl)⟩

theorem formatTwitterResults_total_witness :
    ∃ text : String,
      formatTwitterResults sampleEnv "q" (.value [bareTweet, fullTweet]) "latest" = .ok text :=
  formatTwitterResults_total sampleEnv "q" "latest" (.value [bareTweet, fullTweet])
    (fun ts hts t ht => by
      cases hts
      simp only [List.mem_cons, List.mem_singleton, List.not_mem_nil, or_false] at ht
      rcases ht with rfl | rfl <;> exact ⟨_, rfl⟩)

/-- The text of the report for a post with nothing but an empty author record. -/
theorem formatTwitterResults_bareTweet :
    formatTwitterResults sampleEnv "q" (.value [bareTweet]) "latest" =
      .ok ("=== Twitter Search Results ===\nQuery: q\nSection: latest\nFound 1 tweets\n\n" ++
        "[1] @undefined (null)\nundefined\n❤️ 0 | 🔄 0 | 💬 0\nPosted: undefined\n" ++
        "URL: https://twitter.com/undefined/status/undefined\n") := by
  rfl

/-! ## The gateway -/

theorem truthyNumber_iff (x : Option Int) :
    truthyNumber x = true ↔ ∃ n, x = some n ∧ n ≠ 0 := by
  cases x with
  | none => simp [truthyNumber]
  | some n => simp [truthyNumber]

theorem truthyString_iff (x : Option String) :
    truthyString x = true ↔ ∃ s, x = some s ∧ s ≠ "" := by
  cases x with
  | none => simp [truthyString]
  | some s => simp [truthyString]

theorem buildParams_eq {σ : Type} (env : Env σ) (query section_ : String) (limit : Int)
    (min_retweets min_likes min_replies : Option Int)
    (start_date end_date language : Option String) :
    buildParams env query section_ limit min_retweets min_likes min_replies start_date
        end_date language =
      [("query", query), ("section", section_), ("limit", numberToString env limit)] ++
        (if truthyNumber min_retweets then
          [("min_retweets", numberToString env (min_retweets.getD 0))] else []) ++
        (if truthyNumber min_likes then
          [("min_likes", numberToString env (min_likes.getD 0))] else []) ++
        (if truthyNumber min_replies then
          [("min_replies", numberToString env (min_replies.getD 0))] else []) ++
        (if truthyString start_date then [("start_date", start_date.getD "")] else []) ++
        (if truthyString end_date then [("end_date", end_date.getD "")] else []) ++
        (if truthyString language then [("language", language.getD "")] else []) := by
  unfold buildParams URLSearchParams.append
  cases truthyNumber min_retweets <;> cases truthyNumber min_likes <;>
    cases truthyNumber min_replies <;> cases truthyString start_date <;>
    cases truthyString end_date <;> cases truthyString language <;> rfl

/-- The names of the parameters the code builds: `query`, `section` and `limit`
always, a numeric option when it is a non-zero integer, a string option when it is
a non-empty string. -/
theorem buildParams_names {σ : Type} (env : Env σ) (query section_ : String) (limit : Int)
    (min_retweets min_likes min_replies : Option Int)
    (start_date end_date language : Option String) :
    (buildParams env query section_ limit min_retweets min_likes min_replies start_date
        end_date language).map Prod.fst =
      ["query", "section", "limit"] ++
        (if truthyNumber min_retweets then ["min_retweets"] else []) ++
        (if truthyNumber min_likes then ["min_likes"] else []) ++
        (if truthyNumber min_replies then ["min_replies"] else []) ++
        (if truthyString start_date then ["start_date"] else []) ++
        (if truthyString end_date then ["end_date"] else []) ++
        (if truthyString language then ["language"] else []) := by
  rw [buildParams_eq]
  cases truthyNumber min_retweets <;> cases truthyNumber min_likes <;>
    cases truthyNumber min_replies <;> cases truthyString start_date <;>
    cases truthyString end_date <;> cases truthyString language <;> rfl

theorem performTwitterSearch_no_key {σ : Type} (env : Env σ)
    (hkey : env.RAPIDAPI_KEY = none ∨ env.RAPIDAPI_KEY = some "")
    (query section_ : String) (limit : Int)
    (min_retweets min_likes min_replies : Option Int)
    (start_date end_date language : Option String) (w : σ) :
    performTwitterSearch env query section_ limit min_retweets min_likes min_replies
        start_date end_date language w =
      ⟨.error ⟨"Error", "RAPIDAPI_KEY environment variable is not set"⟩, w⟩ := by
  have ht : truthyString env.RAPIDAPI_KEY = false := by
    rcases hkey with h | h <;> rw [h] <;> rfl
  unfold performTwitterSearch
  rw [if_pos (by rw [ht]; rfl)]
  rfl

theorem performTwitterSearch_world_of_key {σ : Type} (env : Env σ) (key : String)
    (hkey : env.RAPIDAPI_KEY = some key) (hne : key ≠ "")
    (query section_ : String) (limit : Int)
    (min_retweets min_likes min_replies : Option Int)
    (start_date end_date language : Option String) (w : σ) :
    (performTwitterSearch env query section_ limit min_retweets min_likes min_replies
        start_date end_date language w).world =
      (env.axios (searchRequest env key (buildParams env query section_ limit min_retweets
        min_likes min_replies start_date end_date language)) w).2 := by
  have ht : truthyString env.RAPIDAPI_KEY = true :=
    (truthyString_iff _).2 ⟨key, hkey, hne⟩
  unfold performTwitterSearch
  rw [if_neg (by rw [ht]; decide), hkey]
  simp only [Option.getD_some]
  cases (env.axios (searchRequest env key (buildParams env query section_ limit min_retweets
      min_likes min_replies start_date end_date language)) w) with
  | mk settled world =>
    cases settled with
    | error e => rfl
    | ok response =>
      cases response with
      | mk data => cases data <;> rfl

theorem performTwitterSearch_rejected {σ : Type} (env : Env σ) (key : String)
    (hkey : env.RAPIDAPI_KEY = some key) (hne : key ≠ "")
    (query section_ : String) (limit : Int)
    (min_retweets min_likes min_replies : Option Int)
    (start_date end_date language : Option String) (w : σ) (e : JSError)
    (he : (env.axios (searchRequest env key (buildParams env query section_ limit
      min_retweets min_likes min_replies start_date end_date language)) w).1 = .error e) :
    (performTwitterSearch env query section_ limit min_retweets min_likes min_replies
        start_date end_date language w).result = .error e := by
  have ht : truthyString env.RAPIDAPI_KEY = true :=
    (truthyString_iff _).2 ⟨key, hkey, hne⟩
  unfold performTwitterSearch
  rw [if_neg (by rw [ht]; decide), hkey]
  simp only [Option.getD_some]
  rw [he]

/-- C6: the call `searchTwitter({ query: "a", min_likes: 0 })` supplies the integer
`0` for `min_likes`, and the one URL the handler requests holds `query`, `section`
and `limit` but no `min_likes`. -/
theorem searchTwitter_min_likes_zero_dropped :
    zeroLikesArgs.min_likes = some 0 ∧
    "min_likes" ∉ (buildParams sampleEnv "a" "latest" 10 none (some 0) none none none
      none).map Prod.fst ∧
    (searchTwitter sampleEnv zeroLikesArgs []).world =
      [{ method := "GET"
         url := "https://twitter154.p.rapidapi.com/search/search?query=a&section=latest&limit=10"
         headers := [("x-rapidapi-key", "k"),
           ("x-rapidapi-host", "twitter154.p.rapidapi.com")] }] := by
  refine ⟨rfl, by decide, ?_⟩
  rfl

/-- C8: when `RAPIDAPI_KEY` is absent or empty, `performTwitterSearch` fails for
every request with the error `RAPIDAPI_KEY environment variable is not set`, leaves
the outside world as it was and the transport is called zero times; when it is
present (a non-empty string) the transport is called exactly once, the world is
the one the transport leaves after the search request, and a rejection by the
transport is the error of the search. The number of calls is counted by the
transport itself (`counting`). -/
theorem performTwitterSearch_credential {σ : Type} (env : Env σ) (w : σ)
    (query section_ : String) (limit : Int)
    (min_retweets min_likes min_replies : Option Int)
    (start_date end_date language : Option String) :
    ((env.RAPIDAPI_KEY = none ∨ env.RAPIDAPI_KEY = some "") →
      (performTwitterSearch env query section_ limit min_retweets min_likes min_replies
          start_date end_date language w).result =
        .error ⟨"Error", "RAPIDAPI_KEY environment variable is not set"⟩ ∧
      (performTwitterSearch env query section_ limit min_retweets min_likes min_replies
          start_date end_date language w).world = w ∧
      (performTwitterSearch (counting env) query section_ limit min_retweets min_likes
          min_replies start_date end_date language (w, 0)).world.2 = 0) ∧
    (∀ key, env.RAPIDAPI_KEY = some key → key ≠ "" →
      (performTwitterSearch (counting env) query section_ limit min_retweets min_likes
          min_replies start_date end_date language (w, 0)).world.2 = 1 ∧
      (performTwitterSearch env query section_ limit min_retweets min_likes min_replies
          start_date end_date language w).world =
        (env.axios (searchRequest env key (buildParams env query section_ limit
          min_retweets min_likes min_replies start_date end_date language)) w).2 ∧
      ∀ e, (env.axios (searchRequest env key (buildParams env query section_ limit
          min_retweets min_likes min_replies start_date end_date language)) w).1 =
            .error e →
        (performTwitterSearch env query section_ limit min_retweets min_likes min_replies
          start_date end_date language w).result = .error e) := by
  constructor
  · intro h
    rw [performTwitterSearch_no_key env h,
      performTwitterSearch_no_key (counting env) h]
    exact ⟨rfl, rfl, rfl⟩
  · intro key hkey hne
    refine ⟨?_, performTwitterSearch_world_of_key env key hkey hne _ _ _ _ _ _ _ _ _ w,
      fun e he => performTwitterSearch_rejected env key hkey hne _ _ _ _ _ _ _ _ _ w e he⟩
    rw [performTwitterSearch_world_of_key (counting env) key hkey hne]
    rfl

theorem performTwitterSearch_credential_witness :
    ((performTwitterSearch noKeyEnv "a" "latest" 10 none none none none none none []).result =
        .error ⟨"Error", "RAPIDAPI_KEY environment variable is not set"⟩ ∧
      (performTwitterSearch noKeyEnv "a" "latest" 10 none none none none none none []).world =
        [] ∧
      (performTwitterSearch (counting emptyKeyEnv) "a" "latest" 10 none none none none none
        none ([], 0)).world.2 = 0) ∧
    ((performTwitterSearch (counting failingEnv) "a" "latest" 10 none none none none none
        none ([], 0)).world.2 = 1 ∧
      (performTwitterSearch failingEnv "a" "latest" 10 none none none none none none
        []).world =
        [{ method := "GET"
           url := "https://twitter154.p.rapidapi.com/search/search?query=a&section=latest&limit=10"
           headers := [("x-rapidapi-key", "k"),
             ("x-rapidapi-host", "twitter154.p.rapidapi.com")] }] ∧
      (performTwitterSearch failingEnv "a" "latest" 10 none none none none none none
        []).result = .error ⟨"AxiosError", "Request failed with status code 429"⟩) := by
  have hno := (performTwitterSearch_credential noKeyEnv [] "a" "latest" 10 none none none
    none none none).1 (Or.inl rfl)
  have hempty := (performTwitterSearch_credential emptyKeyEnv [] "a" "latest" 10 none none
    none none none none).1 (Or.inr rfl)
  have hkey := (performTwitterSearch_credential failingEnv [] "a" "latest" 10 none none none
    none none none).2 "k" rfl (by decide)
  refine ⟨⟨hno.1, hno.2.1, hempty.2.2⟩, hkey.1, ?_, hkey.2.2 _ rfl⟩
  rw [hkey.2.1]
  rfl

/-! ## Error handling of the handlers -/

theorem tryCatch_result {σ α : Type} (body : Run σ α) (recover : JSError → α) :
    (tryCatch body fun error w1 => ⟨.ok (recover error), w1⟩).result =
      match body.result with
      | .ok v => .ok v
      | .error e => .ok (recover e) := by
  unfold tryCatch
  cases body.result <;> rfl

theorem searchTwitterTry_result_text {σ : Type} (env : Env σ) (a : SearchArgs) (w : σ)
    (v : Envelope) (h : (searchTwitterTry env a w).result = .ok v) :
    ∃ text, v = textEnvelope text := by
  rw [searchTwitterTry_eq] at h
  unfold gatewayThenFormatter at h
  simp only [] at h
  cases hs : (performTwitterSearch env (normalizeQuery a.query) a.section_ a.limit
      a.min_retweets a.min_likes a.min_replies a.start_date a.end_date a.language
      w).result with
  | error e => rw [hs] at h; cases h
  | ok tweets =>
    rw [hs] at h
    simp only [Except.bind] at h
    cases hf : formatTwitterResults env (normalizeQuery a.query) (.value tweets) a.section_ with
    | error e => rw [hf] at h; cases h
    | ok text => rw [hf] at h; cases h; exact ⟨text, rfl⟩

theorem getUserTweetsTry_result_text {σ : Type} (env : Env σ) (a : UserArgs) (w : σ)
    (v : Envelope) (h : (getUserTweetsTry env a w).result = .ok v) :
    ∃ text, v = textEnvelope text := by
  rw [getUserTweetsTry_eq] at h
  unfold gatewayThenFormatter at h
  simp only [] at h
  generalize ("(from:" ++ (if startsWith a.username "@" then substring a.username 1
    else a.username) ++ ")") = q at h
  cases hs : (performTwitterSearch env q a.section_ a.limit none a.min_likes
      none none none none w).result with
  | error e => rw [hs] at h; cases h
  | ok tweets =>
    rw [hs] at h
    simp only [Except.bind] at h
    cases hf : formatTwitterResults env q (.value tweets) a.section_ with
    | error e => rw [hf] at h; cases h
    | ok text => rw [hf] at h; cases h; exact ⟨text, rfl⟩

/-- C7: both handlers always return a successful envelope of one text item; when
the pipeline of `searchTwitter` raises an error with message `m` the text is
`Error searching Twitter: ` + `m`, and when the pipeline of `getUserTweets` raises
one the text is `Error fetching tweets from ` + the username as given + `: ` + `m`. -/
theorem handlers_catch_errors {σ : Type} (env : Env σ) (w : σ) (a : SearchArgs)
    (u : UserArgs) :
    (∃ text : String,
      (searchTwitter env a w).result =
        .ok { content := [{ type := "text", text := text }] } ∧
      ∀ e, (searchTwitterTry env a w).result = .error e →
        text = "Error searching Twitter: " ++ e.message) ∧
    (∃ text : String,
      (getUserTweets env u w).result =
        .ok { content := [{ type := "text", text := text }] } ∧
      ∀ e, (getUserTweetsTry env u w).result = .error e →
        text = "Error fetching tweets from " ++ u.username ++ ": " ++ e.message) := by
  constructor
  · unfold searchTwitter
    rw [tryCatch_result]
    cases h : (searchTwitterTry env a w).result with
    | error e =>
      refine ⟨_, rfl, ?_⟩
      intro e1 he
      cases he
      rfl
    | ok v =>
      obtain ⟨text, rfl⟩ := searchTwitterTry_result_text env a w v h
      exact ⟨text, rfl, fun e he => by cases he⟩
  · unfold getUserTweets
    rw [tryCatch_result]
    cases h : (getUserTweetsTry env u w).result with
    | error e =>
      refine ⟨_, rfl, ?_⟩
      intro e1 he
      cases he
      rfl
    | ok v =>
      obtain ⟨text, rfl⟩ := getUserTweetsTry_result_text env u w v h
      exact ⟨text, rfl, fun e he => by cases he⟩

theorem handlers_catch_errors_witness :
    (searchTwitter noKeyEnv (searchArgs "bitcoin") []).result =
      .ok (textEnvelope
        "Error searching Twitter: RAPIDAPI_KEY environment variable is not set") ∧
    (getUserTweets failingEnv (userArgs "@openai") []).result =
      .ok (textEnvelope
        "Error fetching tweets from @openai: Request failed with status code 429") := by
  obtain ⟨⟨t1, h1, e1⟩, -⟩ :=
    handlers_catch_errors noKeyEnv [] (searchArgs "bitcoin") (userArgs "@openai")
  obtain ⟨-, ⟨t4, h4, e4⟩⟩ :=
    handlers_catch_errors failingEnv [] (searchArgs "bitcoin") (userArgs "@openai")
  refine ⟨?_, ?_⟩
  · rw [h1, e1 ⟨"Error", "RAPIDAPI_KEY environment variable is not set"⟩ rfl]
    rfl
  · rw [h4, e4 ⟨"AxiosError", "Request failed with status code 429"⟩ rfl]
    rfl

/-- An error raised by the formatter is caught by the handler as well. -/
theorem searchTwitter_formatter_error :
    (searchTwitter brokenPostEnv (searchArgs "bitcoin") []).result =
      .ok (textEnvelope ("Error searching Twitter: " ++
        "Cannot read properties of undefined (reading 'username')")) := by
  rfl

set_option maxRecDepth 100000 in
/-- The end-to-end example of the specification: `@openai`, section `top`,
limit 2, an upstream answering two posts. -/
theorem searchTwitter_example :
    (searchTwitter sampleEnv (searchArgs "@openai") []).result =
      .ok (textEnvelope
        ("=== Twitter Search Results ===\nQuery: (from:openai)\nSection: top\n" ++
         "Found 2 tweets\n\n" ++
         "[1] @openai (OpenAI)\nhello\n❤️ 5 | 🔄 0 | 💬 0\nPosted: 2024-01-01\n" ++
         "Media: https://pbs.twimg.com/a.jpg\nURL: https://twitter.com/openai/status/17\n\n" ++
         "[2] @openai (OpenAI)\nhello\n❤️ 5 | 🔄 0 | 💬 0\nPosted: 2024-01-01\n" ++
         "Media: https://pbs.twimg.com/a.jpg\nURL: https://twitter.com/openai/status/17\n")) ∧
    (searchTwitter sampleEnv (searchArgs "@openai") []).world =
      [{ method := "GET"
         url := "https://twitter154.p.rapidapi.com/search/search?" ++
           "query=(from:openai)&section=top&limit=2"
         headers := [("x-rapidapi-key", "k"),
           ("x-rapidapi-host", "twitter154.p.rapidapi.com")] }] := by
  constructor <;> rfl

end Twitter
